import Mathlib

/-!
Verification of the `sideways` telemetry initialization library.

The definitions below are a shallow embedding of the Rust sources:
`src/lib.rs` (configuration record, builder, combined initializer),
`src/tracing.rs` (severity-filter resolution, console/export subscriber
construction, health-check filter) and `src/metrics.rs` (StatsD client
construction).  Rust strings are modelled by Lean `String`, environment
access by a snapshot function `String → Option String`, and the ambient
process-global state (installed subscriber, installed metrics client) by
an explicit `ProcessState` record threaded through the initializers.
-/

namespace Sideways

/-! ## String helpers

Rust `str::starts_with` and `str::contains` (substring mode), modelled
over the character lists of the strings. -/

/-- Substring search over character lists: does any suffix of `s` start
with `pat`?  Models Rust `str::contains` with a string pattern. -/
def containsSubAux (pat : List Char) : List Char → Bool
  | [] => pat.isPrefixOf ([] : List Char)
  | c :: cs => pat.isPrefixOf (c :: cs) || containsSubAux pat cs

/-- Rust `s.contains(pat)` for a literal string pattern. -/
def strContainsSub (s pat : String) : Bool :=
  containsSubAux pat.data s.data

/-- Rust `s.starts_with(pat)`. -/
def strStartsWith (s pat : String) : Bool :=
  pat.data.isPrefixOf s.data

/-- Rust `str::to_lowercase`, modelled as per-character lowercasing. -/
def strToLower (s : String) : String :=
  String.mk (s.data.map Char.toLower)

/-- Value of a non-empty decimal digit string (most significant first). -/
def digitsToNat (l : List Char) : Nat :=
  l.foldl (fun acc c => acc * 10 + (c.toNat - 48)) 0

/-- Decimal natural-number parsing: all characters must be digits and
there must be at least one. -/
def strToNat? (s : String) : Option Nat :=
  if s.data.isEmpty then none
  else if s.data.all Char.isDigit then some (digitsToNat s.data)
  else none

/-! ## Configuration record (`TelemetryConfig`, src/lib.rs) -/

/-- The configuration record of `src/lib.rs`.

The field `global_tags` is read by `init_metrics` in `src/metrics.rs`
(`config.global_tags`) but its declaration is absent from the
`TelemetryConfig` struct in the `src/lib.rs` snapshot.
Modelled from the spec: the missing declaration of the static-tag field,
"mapping of string→string: static tags attached to every emitted metric". -/
@[ext]
structure TelemetryConfig where
  datadog_enabled : Bool
  dd_service : String
  dd_env : String
  dd_trace_agent_url : String
  rust_log : String
  metrics_enabled : Bool
  statsd_host : String
  statsd_port : Nat
  metrics_prefix : String
  global_tags : List (String × String)
deriving DecidableEq, Repr

/-- `impl Default for TelemetryConfig` in src/lib.rs. -/
def TelemetryConfig.default : TelemetryConfig :=
  { datadog_enabled := true
    dd_service := "sideways-service"
    dd_env := "development"
    dd_trace_agent_url := "http://localhost:8126"
    rust_log := "info"
    metrics_enabled := true
    statsd_host := "localhost"
    statsd_port := 8125
    metrics_prefix := "sideways"
    global_tags := [] }

/-- Rust `str::parse::<u16>()`: optional leading `+`, then decimal
digits only, value at most 65535; anything else is a parse error. -/
def parseU16 (s : String) : Option Nat :=
  match strToNat? (if strStartsWith s "+" then String.mk s.data.tail else s) with
  | some n => if n ≤ 65535 then some n else none
  | none => none

/-! ### `TelemetryConfig::from_env` (src/lib.rs)

Each `apply…` function is one `if let Ok(v) = env::var("…")` block of the
source, applied in source order starting from the default record. -/

/-- `DD_TRACE_ENABLED`: disable tracing when the lower-cased value is
exactly "false". -/
def applyDdTraceEnabled (env : String → Option String) (c : TelemetryConfig) : TelemetryConfig :=
  match env "DD_TRACE_ENABLED" with
  | some enabled => if strToLower enabled = "false" then { c with datadog_enabled := false } else c
  | none => c

/-- `METRICS_ENABLED`: disable metrics when the lower-cased value is
exactly "false". -/
def applyMetricsEnabled (env : String → Option String) (c : TelemetryConfig) : TelemetryConfig :=
  match env "METRICS_ENABLED" with
  | some enabled => if strToLower enabled = "false" then { c with metrics_enabled := false } else c
  | none => c

/-- `DD_SERVICE` overrides the service name verbatim. -/
def applyDdService (env : String → Option String) (c : TelemetryConfig) : TelemetryConfig :=
  match env "DD_SERVICE" with
  | some service => { c with dd_service := service }
  | none => c

/-- `DD_ENV` overrides the environment label verbatim. -/
def applyDdEnv (env : String → Option String) (c : TelemetryConfig) : TelemetryConfig :=
  match env "DD_ENV" with
  | some v => { c with dd_env := v }
  | none => c

/-- `DD_TRACE_AGENT_URL` overrides the agent URL verbatim. -/
def applyDdTraceAgentUrl (env : String → Option String) (c : TelemetryConfig) : TelemetryConfig :=
  match env "DD_TRACE_AGENT_URL" with
  | some url => { c with dd_trace_agent_url := url }
  | none => c

/-- `RUST_LOG` overrides the severity filter expression verbatim. -/
def applyRustLog (env : String → Option String) (c : TelemetryConfig) : TelemetryConfig :=
  match env "RUST_LOG" with
  | some v => { c with rust_log := v }
  | none => c

/-- `STATSD_HOST` overrides the metrics host verbatim. -/
def applyStatsdHost (env : String → Option String) (c : TelemetryConfig) : TelemetryConfig :=
  match env "STATSD_HOST" with
  | some host => { c with statsd_host := host }
  | none => c

/-- `STATSD_PORT`: adopted only when it parses as a `u16`. -/
def applyStatsdPort (env : String → Option String) (c : TelemetryConfig) : TelemetryConfig :=
  match env "STATSD_PORT" with
  | some port =>
    match parseU16 port with
    | some n => { c with statsd_port := n }
    | none => c
  | none => c

/-- `METRICS_PREFIX` overrides the metrics namespace prefix verbatim. -/
def applyMetricsPrefix (env : String → Option String) (c : TelemetryConfig) : TelemetryConfig :=
  match env "METRICS_PREFIX" with
  | some v => { c with metrics_prefix := v }
  | none => c

/-- `TelemetryConfig::from_env`: the default record with the environment
overrides applied in source order. -/
def TelemetryConfig.from_env (env : String → Option String) : TelemetryConfig :=
  applyMetricsPrefix env (applyStatsdPort env (applyStatsdHost env (applyRustLog env
    (applyDdTraceAgentUrl env (applyDdEnv env (applyDdService env
      (applyMetricsEnabled env (applyDdTraceEnabled env TelemetryConfig.default))))))))

/-! ## `TelemetryConfigBuilder` (src/lib.rs)

`#[derive(Default)]` on the builder wraps `TelemetryConfig::default()`;
each setter overwrites one field; `build` returns the wrapped record. -/

structure TelemetryConfigBuilder where
  config : TelemetryConfig

/-- Derived `Default` for the builder: wraps the default record. -/
def TelemetryConfigBuilder.default : TelemetryConfigBuilder :=
  ⟨TelemetryConfig.default⟩

/-- `TelemetryConfig::builder()`. -/
def TelemetryConfig.builder : TelemetryConfigBuilder :=
  TelemetryConfigBuilder.default

def TelemetryConfigBuilder.datadog_enabled (b : TelemetryConfigBuilder) (v : Bool) : TelemetryConfigBuilder :=
  ⟨{ b.config with datadog_enabled := v }⟩

def TelemetryConfigBuilder.dd_service (b : TelemetryConfigBuilder) (v : String) : TelemetryConfigBuilder :=
  ⟨{ b.config with dd_service := v }⟩

def TelemetryConfigBuilder.dd_env (b : TelemetryConfigBuilder) (v : String) : TelemetryConfigBuilder :=
  ⟨{ b.config with dd_env := v }⟩

def TelemetryConfigBuilder.dd_trace_agent_url (b : TelemetryConfigBuilder) (v : String) : TelemetryConfigBuilder :=
  ⟨{ b.config with dd_trace_agent_url := v }⟩

def TelemetryConfigBuilder.rust_log (b : TelemetryConfigBuilder) (v : String) : TelemetryConfigBuilder :=
  ⟨{ b.config with rust_log := v }⟩

def TelemetryConfigBuilder.metrics_enabled (b : TelemetryConfigBuilder) (v : Bool) : TelemetryConfigBuilder :=
  ⟨{ b.config with metrics_enabled := v }⟩

def TelemetryConfigBuilder.statsd_host (b : TelemetryConfigBuilder) (v : String) : TelemetryConfigBuilder :=
  ⟨{ b.config with statsd_host := v }⟩

def TelemetryConfigBuilder.statsd_port (b : TelemetryConfigBuilder) (v : Nat) : TelemetryConfigBuilder :=
  ⟨{ b.config with statsd_port := v }⟩

def TelemetryConfigBuilder.metrics_prefix (b : TelemetryConfigBuilder) (v : String) : TelemetryConfigBuilder :=
  ⟨{ b.config with metrics_prefix := v }⟩

def TelemetryConfigBuilder.build (b : TelemetryConfigBuilder) : TelemetryConfig :=
  b.config

/-- One setter call of the fluent builder chain; there is one
constructor per setter method of `TelemetryConfigBuilder` (the source
has no setter for the static-tag field). -/
inductive BuilderOp where
  | setDatadogEnabled (v : Bool)
  | setDdService (v : String)
  | setDdEnv (v : String)
  | setDdTraceAgentUrl (v : String)
  | setRustLog (v : String)
  | setMetricsEnabled (v : Bool)
  | setStatsdHost (v : String)
  | setStatsdPort (v : Nat)
  | setMetricsPrefix (v : String)
deriving DecidableEq, Repr

/-- Dispatch one setter call to the corresponding builder method. -/
def applyOp (b : TelemetryConfigBuilder) : BuilderOp → TelemetryConfigBuilder
  | .setDatadogEnabled v => TelemetryConfigBuilder.datadog_enabled b v
  | .setDdService v => TelemetryConfigBuilder.dd_service b v
  | .setDdEnv v => TelemetryConfigBuilder.dd_env b v
  | .setDdTraceAgentUrl v => TelemetryConfigBuilder.dd_trace_agent_url b v
  | .setRustLog v => TelemetryConfigBuilder.rust_log b v
  | .setMetricsEnabled v => TelemetryConfigBuilder.metrics_enabled b v
  | .setStatsdHost v => TelemetryConfigBuilder.statsd_host b v
  | .setStatsdPort v => TelemetryConfigBuilder.statsd_port b v
  | .setMetricsPrefix v => TelemetryConfigBuilder.metrics_prefix b v

/-- `TelemetryConfig::builder()` followed by the given chain of setter
calls (in order) and a final `.build()`. -/
def runOps (ops : List BuilderOp) : TelemetryConfig :=
  TelemetryConfigBuilder.build (ops.foldl applyOp TelemetryConfig.builder)

/-- The value a field holds after a call sequence, given its value `d`
before: the argument of the last relevant setter, or `d` if none. -/
def valAfter (sel : BuilderOp → Option α) (d : α) (ops : List BuilderOp) : α :=
  ops.foldl (fun acc op => (sel op).getD acc) d

def selDatadogEnabled : BuilderOp → Option Bool
  | .setDatadogEnabled v => some v
  | _ => none

def selDdService : BuilderOp → Option String
  | .setDdService v => some v
  | _ => none

def selDdEnv : BuilderOp → Option String
  | .setDdEnv v => some v
  | _ => none

def selDdTraceAgentUrl : BuilderOp → Option String
  | .setDdTraceAgentUrl v => some v
  | _ => none

def selRustLog : BuilderOp → Option String
  | .setRustLog v => some v
  | _ => none

def selMetricsEnabled : BuilderOp → Option Bool
  | .setMetricsEnabled v => some v
  | _ => none

def selStatsdHost : BuilderOp → Option String
  | .setStatsdHost v => some v
  | _ => none

def selStatsdPort : BuilderOp → Option Nat
  | .setStatsdPort v => some v
  | _ => none

def selMetricsPrefix : BuilderOp → Option String
  | .setMetricsPrefix v => some v
  | _ => none

/-! ## Health-check filter (src/tracing.rs) -/

/-- The span/event metadata consulted by the filter: `meta.target()`
and `meta.name()` of the `tracing` crate's `Metadata`. -/
structure Metadata where
  target : String
  name : String
deriving DecidableEq, Repr

/-- `impl Filter for HealthCheckFilter` in src/tracing.rs: `enabled`
returns whether the span/event is admitted to the layer it gates. -/
def HealthCheckFilter.enabled (meta : Metadata) : Bool :=
  if strStartsWith meta.target "tonic_health" then false
  else if strContainsSub meta.target "grpc.health" || strContainsSub meta.target "Health" then false
  else if strContainsSub meta.name "health" || strContainsSub meta.name "Health" ||
      strContainsSub meta.name "Check" then false
  else true

/-- The rejection condition as the spec words it: an ordered first-match
rule list whose branches all reject, hence one disjunction. -/
def healthSpecRejects (meta : Metadata) : Bool :=
  strStartsWith meta.target "tonic_health" ||
    (strContainsSub meta.target "grpc.health" || strContainsSub meta.target "Health") ||
    (strContainsSub meta.name "health" || strContainsSub meta.name "Health" ||
      strContainsSub meta.name "Check")

/-! ## Severity levels and events -/

/-- `tracing::Level`. -/
inductive Level where
  | trace
  | debug
  | info
  | warn
  | error
deriving DecidableEq, Repr

/-- `LevelFilter::INFO` as a per-event predicate: admits events of
severity INFO and higher (INFO, WARN, ERROR). -/
def infoLevelFilterEnabled : Level → Bool
  | .trace => false
  | .debug => false
  | .info => true
  | .warn => true
  | .error => true

/-- A span/event lifecycle point: its metadata and its severity. -/
structure Event where
  meta : Metadata
  level : Level
deriving DecidableEq, Repr

/-! ## Severity-filter resolution (`get_env_filter`, src/tracing.rs)

`tracing_subscriber::EnvFilter` is external; a filter is modelled by the
directive string it was built from, its parser by an abstract predicate
`parseOk` (does the expression contain only valid directives), and its
per-event semantics by an abstract `envFilterSem` in `World` below. -/

/-- A resolved `EnvFilter`, identified by its directive expression. -/
abbrev FilterExpr := String

/-- `EnvFilter::try_new(s)`: succeeds exactly when the expression
parses. -/
def envFilterTryNew (parseOk : String → Bool) (s : String) : Option FilterExpr :=
  if parseOk s then some s else none

/-- `EnvFilter::try_from_default_env()`: reads the `RUST_LOG` process
environment variable; errors when it is unset or fails to parse. -/
def try_from_default_env (parseOk : String → Bool) (rustLogEnv : Option String) :
    Option FilterExpr :=
  match rustLogEnv with
  | some s => envFilterTryNew parseOk s
  | none => none

/-- `get_env_filter` in src/tracing.rs: `RUST_LOG` from the process
environment, else the configured expression, else the hardcoded
`"info"` (`EnvFilter::new("info")`); parse failures fall through. -/
def get_env_filter (parseOk : String → Bool) (rustLogEnv : Option String)
    (config : TelemetryConfig) : FilterExpr :=
  (Option.orElse (try_from_default_env parseOk rustLogEnv)
    (fun _ => envFilterTryNew parseOk config.rust_log)).getD "info"

/-! ## Process-global state, external world, and error type -/

/-- `TelemetryError` in src/lib.rs (error payloads modelled by their
message strings). -/
inductive TelemetryError where
  | DatadogDisabled
  | SubscriberInit (msg : String)
  | MetricsDisabled
  | SocketBind (msg : String)
  | SinkCreation (msg : String)
deriving DecidableEq, Repr

/-- The layered subscriber built by the tracing initializers: a console
(`fmt`) layer gated by its own filter, plus — on the export path — an
OpenTelemetry export layer gated by its own filter.  A layer receives a
span/event exactly when its filter admits it. -/
structure Subscriber where
  consoleFilter : Event → Bool
  exportFilter : Option (Event → Bool)

/-- `opentelemetry_sdk::trace::SdkTracerProvider`, identified by the
service name and agent host the Datadog config builder received. -/
structure TracerProvider where
  service : String
  agentHost : String
deriving DecidableEq, Repr

/-- The StatsD client of the cadence library, as configured by
`init_metrics`: the namespace it prefixes onto every metric key and the
constant tags it appends to every frame. -/
structure StatsdClient where
  clientPrefix : String
  defaultTags : List (String × String)
deriving DecidableEq, Repr

/-- Process-wide ambient state: the installed global subscriber
(`tracing::subscriber::set_global_default`) and the installed global
metrics client (`cadence_macros::set_global_default`). -/
structure ProcessState where
  globalSubscriber : Option Subscriber
  globalMetrics : Option StatsdClient

/-- External collaborators of the initializers: the process environment
at call time, the external `EnvFilter` grammar and semantics, and the
outcomes of the two fallible metrics steps (UDP bind, sink creation),
`none` meaning success. -/
structure World where
  env : String → Option String
  parseOk : String → Bool
  envFilterSem : FilterExpr → Event → Bool
  udpBindErr : Option String
  sinkCreateErr : Option String

/-- The error message of `tracing_core`'s `SetGlobalDefaultError`. -/
def setGlobalDefaultErrMsg : String :=
  "a global default trace dispatcher has already been set"

/-! ## Tracing initializers (src/tracing.rs) -/

/-- The subscriber composed by `init_console_logging`: registry plus a
console layer filtered by the resolved severity filter; no export
layer. -/
def initConsoleSubscriber (w : World) (config : TelemetryConfig) : Subscriber :=
  { consoleFilter := w.envFilterSem (get_env_filter w.parseOk (w.env "RUST_LOG") config)
    exportFilter := none }

/-- `init_console_logging`: installs the console-only subscriber; a
`set_global_default` failure is only printed, the state is unchanged. -/
def init_console_logging (w : World) (config : TelemetryConfig) (st : ProcessState) :
    ProcessState :=
  match st.globalSubscriber with
  | some _ => st
  | none => { st with globalSubscriber := some (initConsoleSubscriber w config) }

/-- The subscriber composed by `init_datadog`: the same console layer,
plus the OpenTelemetry export layer gated by
`.with_filter(HealthCheckFilter).with_filter(LevelFilter::INFO)` —
both filters must admit the span/event. -/
def initDatadogSubscriber (w : World) (config : TelemetryConfig) : Subscriber :=
  { consoleFilter := w.envFilterSem (get_env_filter w.parseOk (w.env "RUST_LOG") config)
    exportFilter := some (fun e =>
      HealthCheckFilter.enabled e.meta && infoLevelFilterEnabled e.level) }

/-- Whether the console layer of a subscriber receives a span/event:
exactly when its own filter admits it. -/
def consoleReceives (s : Subscriber) (e : Event) : Bool :=
  s.consoleFilter e

/-- Whether the export layer of a subscriber receives a span/event:
exactly when an export layer exists and its filter admits the event. -/
def exportReceives (s : Subscriber) (e : Event) : Bool :=
  match s.exportFilter with
  | some ef => ef e
  | none => false

/-- `init_datadog`: builds the Datadog tracer provider from the service
name and agent URL, composes the layered subscriber, and attempts to
install it; `set_global_default` fails exactly when a global subscriber
is already installed, and the failure is surfaced as
`TelemetryError::SubscriberInit`. -/
def init_datadog (w : World) (config : TelemetryConfig) (st : ProcessState) :
    Except TelemetryError TracerProvider × ProcessState :=
  let provider : TracerProvider := ⟨config.dd_service, config.dd_trace_agent_url⟩
  match st.globalSubscriber with
  | some _ => (Except.error (TelemetryError.SubscriberInit setGlobalDefaultErrMsg), st)
  | none =>
    (Except.ok provider, { st with globalSubscriber := some (initDatadogSubscriber w config) })

/-! ## Metrics initializer (src/metrics.rs) -/

/-- The cadence `StatsdClientBuilder` state relevant here: the prefix it
was created with and the constant tags added so far. -/
structure StatsdBuilder where
  clientPrefix : String
  defaultTags : List (String × String)

/-- Cadence `StatsdClient::builder(prefix, sink)`. -/
def statsdClientBuilder (pfx : String) : StatsdBuilder :=
  ⟨pfx, []⟩

/-- Cadence `builder.with_tag(key, value)`: appends one constant tag. -/
def StatsdBuilder.with_tag (b : StatsdBuilder) (key value : String) : StatsdBuilder :=
  ⟨b.clientPrefix, b.defaultTags ++ [(key, value)]⟩

/-- Cadence `builder.build()`. -/
def StatsdBuilder.build (b : StatsdBuilder) : StatsdClient :=
  ⟨b.clientPrefix, b.defaultTags⟩

/-- The client constructed by `init_metrics`: builder from the
configured prefix, one `with_tag` call per configured global tag (in
order), then `build()`. -/
def buildStatsdClient (config : TelemetryConfig) : StatsdClient :=
  StatsdBuilder.build
    (config.global_tags.foldl (fun b kv => StatsdBuilder.with_tag b kv.1 kv.2)
      (statsdClientBuilder (TelemetryConfig.metrics_prefix config)))

/-- `init_metrics` in src/metrics.rs: bind the UDP socket, create the
buffered sink, build the client and register it as the global default
for the cadence macros (overwriting any previous client); the two
fallible external steps surface as `SocketBind` / `SinkCreation`. -/
def init_metrics (w : World) (config : TelemetryConfig) (st : ProcessState) :
    Except TelemetryError Unit × ProcessState :=
  match w.udpBindErr with
  | some e => (Except.error (TelemetryError.SocketBind e), st)
  | none =>
    match w.sinkCreateErr with
    | some e => (Except.error (TelemetryError.SinkCreation e), st)
    | none => (Except.ok (), { st with globalMetrics := some (buildStatsdClient config) })

/-! ### Cadence wire-format model

The following two definitions model the documented frame format of the
external cadence client for a counter emission (`statsd_count!`): the
metric key is prefixed with the client namespace and a dot, and the
client's constant tags are appended in Datadog `|#k:v,…` form. -/

/-- Datadog-style tag suffix of a frame. -/
def joinTags : List (String × String) → String
  | [] => ""
  | [kv] => kv.1 ++ ":" ++ kv.2
  | kv :: rest => kv.1 ++ ":" ++ kv.2 ++ "," ++ joinTags rest

/-- The frame the wrapped transport receives for a counter increment. -/
def counterFrame (c : StatsdClient) (key : String) (value : Int) : String :=
  (if c.clientPrefix = "" then key else c.clientPrefix ++ "." ++ key) ++
    ":" ++ toString value ++ "|c" ++
    (if c.defaultTags.isEmpty then "" else "|#" ++ joinTags c.defaultTags)

/-! ## Combined initializer (`init_telemetry`, src/lib.rs) -/

/-- The handle returned by `init_telemetry`. -/
structure Telemetry where
  tracer_provider : Option TracerProvider
deriving DecidableEq, Repr

/-- `init_telemetry`: total — every initialization failure is caught.
When tracing is enabled, an `init_datadog` error is logged and leaves
`tracer_provider` empty; when disabled, console-only logging is set up.
When metrics are enabled, an `init_metrics` error is logged and
otherwise ignored. -/
def init_telemetry (w : World) (config : TelemetryConfig) (st : ProcessState) :
    Telemetry × ProcessState :=
  let tracingStep : Option TracerProvider × ProcessState :=
    if config.datadog_enabled then
      match init_datadog w config st with
      | (Except.ok provider, st₁) => (some provider, st₁)
      | (Except.error _, st₁) => (none, st₁)
    else
      (none, init_console_logging w config st)
  let st₂ : ProcessState :=
    if config.metrics_enabled then (init_metrics w config tracingStep.2).2
    else tracingStep.2
  (⟨tracingStep.1⟩, st₂)

/-- A world whose external steps all succeed and whose severity filter
admits everything. -/
def wOk : World :=
  { env := fun _ => none
    parseOk := fun _ => true
    envFilterSem := fun _ _ => true
    udpBindErr := none
    sinkCreateErr := none }

/-- A fresh process: nothing installed yet. -/
def emptyState : ProcessState :=
  { globalSubscriber := none, globalMetrics := none }

/-- An INFO-severity event whose target matches a health-check rule. -/
def eHealth : Event :=
  ⟨⟨"grpc.health.v1.Health", "rpc"⟩, Level.info⟩

/-- Environment snapshot with no recognized variables. -/
def envNone : String → Option String := fun _ => none

/-- Environment with both disable variables set to `"False"`. -/
def envDisableFalse : String → Option String := fun k =>
  if k = "DD_TRACE_ENABLED" then some "False"
  else if k = "METRICS_ENABLED" then some "False"
  else none

/-- Environment with both disable variables set to `"0"`. -/
def envDisableZero : String → Option String := fun k =>
  if k = "DD_TRACE_ENABLED" then some "0"
  else if k = "METRICS_ENABLED" then some "0"
  else none

/-- Environment that only overrides the service name. -/
def envServiceOnly : String → Option String := fun k =>
  if k = "DD_SERVICE" then some "env-service" else none

/-- Environment with a valid port override. -/
def envPortGood : String → Option String := fun k =>
  if k = "STATSD_PORT" then some "8080" else none

/-- Environment with an out-of-range port override. -/
def envPortBad : String → Option String := fun k =>
  if k = "STATSD_PORT" then some "70000" else none

/-- Environment in which every variable is set to the empty string. -/
def envAllEmpty : String → Option String := fun _ => some ""

/-- The C5 scenario configuration: tracing disabled, metrics enabled,
prefix `"svc"`, one static tag `region:us`. -/
def svcConfig : TelemetryConfig :=
  { TelemetryConfig.default with
    datadog_enabled := false
    metrics_prefix := "svc"
    global_tags := [("region", "us")] }

/-- An `EnvFilter` grammar for the C7 witness: only `"custom=debug"`
parses. -/
def parseOkDemo : String → Bool := fun s => s == "custom=debug"

/-- An `EnvFilter` grammar for the C7 witness: only `"info"` parses. -/
def parseOkInfoOnly : String → Bool := fun s => s == "info"

/-- A world whose UDP bind step fails. -/
def wBindFail : World :=
  { wOk with udpBindErr := some "bind failed" }

/-! ### Field-tracking lemmas for `from_env`

Each override step touches exactly one field; the lemmas below record
this, one per (step, untouched field) pair. -/

@[simp] theorem applyDdTraceEnabled_metrics_enabled (env : String → Option String) (c : TelemetryConfig) :
    (applyDdTraceEnabled env c).metrics_enabled = c.metrics_enabled := by
  unfold applyDdTraceEnabled
  repeat' split
  all_goals rfl

@[simp] theorem applyDdTraceEnabled_dd_service (env : String → Option String) (c : TelemetryConfig) :
    (applyDdTraceEnabled env c).dd_service = c.dd_service := by
  unfold applyDdTraceEnabled
  repeat' split
  all_goals rfl

@[simp] theorem applyDdTraceEnabled_dd_env (env : String → Option String) (c : TelemetryConfig) :
    (applyDdTraceEnabled env c).dd_env = c.dd_env := by
  unfold applyDdTraceEnabled
  repeat' split
  all_goals rfl

@[simp] theorem applyDdTraceEnabled_dd_trace_agent_url (env : String → Option String) (c : TelemetryConfig) :
    (applyDdTraceEnabled env c).dd_trace_agent_url = c.dd_trace_agent_url := by
  unfold applyDdTraceEnabled
  repeat' split
  all_goals rfl

@[simp] theorem applyDdTraceEnabled_rust_log (env : String → Option String) (c : TelemetryConfig) :
    (applyDdTraceEnabled env c).rust_log = c.rust_log := by
  unfold applyDdTraceEnabled
  repeat' split
  all_goals rfl

@[simp] theorem applyDdTraceEnabled_statsd_host (env : String → Option String) (c : TelemetryConfig) :
    (applyDdTraceEnabled env c).statsd_host = c.statsd_host := by
  unfold applyDdTraceEnabled
  repeat' split
  all_goals rfl

@[simp] theorem applyDdTraceEnabled_statsd_port (env : String → Option String) (c : TelemetryConfig) :
    (applyDdTraceEnabled env c).statsd_port = c.statsd_port := by
  unfold applyDdTraceEnabled
  repeat' split
  all_goals rfl

@[simp] theorem applyDdTraceEnabled_mpfx (env : String → Option String) (c : TelemetryConfig) :
    TelemetryConfig.metrics_prefix (applyDdTraceEnabled env c) = TelemetryConfig.metrics_prefix (c) := by
  unfold applyDdTraceEnabled
  repeat' split
  all_goals rfl

@[simp] theorem applyMetricsEnabled_datadog_enabled (env : String → Option String) (c : TelemetryConfig) :
    (applyMetricsEnabled env c).datadog_enabled = c.datadog_enabled := by
  unfold applyMetricsEnabled
  repeat' split
  all_goals rfl

@[simp] theorem applyMetricsEnabled_dd_service (env : String → Option String) (c : TelemetryConfig) :
    (applyMetricsEnabled env c).dd_service = c.dd_service := by
  unfold applyMetricsEnabled
  repeat' split
  all_goals rfl

@[simp] theorem applyMetricsEnabled_dd_env (env : String → Option String) (c : TelemetryConfig) :
    (applyMetricsEnabled env c).dd_env = c.dd_env := by
  unfold applyMetricsEnabled
  repeat' split
  all_goals rfl

@[simp] theorem applyMetricsEnabled_dd_trace_agent_url (env : String → Option String) (c : TelemetryConfig) :
    (applyMetricsEnabled env c).dd_trace_agent_url = c.dd_trace_agent_url := by
  unfold applyMetricsEnabled
  repeat' split
  all_goals rfl

@[simp] theorem applyMetricsEnabled_rust_log (env : String → Option String) (c : TelemetryConfig) :
    (applyMetricsEnabled env c).rust_log = c.rust_log := by
  unfold applyMetricsEnabled
  repeat' split
  all_goals rfl

@[simp] theorem applyMetricsEnabled_statsd_host (env : String → Option String) (c : TelemetryConfig) :
    (applyMetricsEnabled env c).statsd_host = c.statsd_host := by
  unfold applyMetricsEnabled
  repeat' split
  all_goals rfl

@[simp] theorem applyMetricsEnabled_statsd_port (env : String → Option String) (c : TelemetryConfig) :
    (applyMetricsEnabled env c).statsd_port = c.statsd_port := by
  unfold applyMetricsEnabled
  repeat' split
  all_goals rfl

@[simp] theorem applyMetricsEnabled_mpfx (env : String → Option String) (c : TelemetryConfig) :
    TelemetryConfig.metrics_prefix (applyMetricsEnabled env c) = TelemetryConfig.metrics_prefix (c) := by
  unfold applyMetricsEnabled
  repeat' split
  all_goals rfl

@[simp] theorem applyDdService_datadog_enabled (env : String → Option String) (c : TelemetryConfig) :
    (applyDdService env c).datadog_enabled = c.datadog_enabled := by
  unfold applyDdService
  repeat' split
  all_goals rfl

@[simp] theorem applyDdService_metrics_enabled (env : String → Option String) (c : TelemetryConfig) :
    (applyDdService env c).metrics_enabled = c.metrics_enabled := by
  unfold applyDdService
  repeat' split
  all_goals rfl

@[simp] theorem applyDdService_dd_env (env : String → Option String) (c : TelemetryConfig) :
    (applyDdService env c).dd_env = c.dd_env := by
  unfold applyDdService
  repeat' split
  all_goals rfl

@[simp] theorem applyDdService_dd_trace_agent_url (env : String → Option String) (c : TelemetryConfig) :
    (applyDdService env c).dd_trace_agent_url = c.dd_trace_agent_url := by
  unfold applyDdService
  repeat' split
  all_goals rfl

@[simp] theorem applyDdService_rust_log (env : String → Option String) (c : TelemetryConfig) :
    (applyDdService env c).rust_log = c.rust_log := by
  unfold applyDdService
  repeat' split
  all_goals rfl

@[simp] theorem applyDdService_statsd_host (env : String → Option String) (c : TelemetryConfig) :
    (applyDdService env c).statsd_host = c.statsd_host := by
  unfold applyDdService
  repeat' split
  all_goals rfl

@[simp] theorem applyDdService_statsd_port (env : String → Option String) (c : TelemetryConfig) :
    (applyDdService env c).statsd_port = c.statsd_port := by
  unfold applyDdService
  repeat' split
  all_goals rfl

@[simp] theorem applyDdService_mpfx (env : String → Option String) (c : TelemetryConfig) :
    TelemetryConfig.metrics_prefix (applyDdService env c) = TelemetryConfig.metrics_prefix (c) := by
  unfold applyDdService
  repeat' split
  all_goals rfl

@[simp] theorem applyDdEnv_datadog_enabled (env : String → Option String) (c : TelemetryConfig) :
    (applyDdEnv env c).datadog_enabled = c.datadog_enabled := by
  unfold applyDdEnv
  repeat' split
  all_goals rfl

@[simp] theorem applyDdEnv_metrics_enabled (env : String → Option String) (c : TelemetryConfig) :
    (applyDdEnv env c).metrics_enabled = c.metrics_enabled := by
  unfold applyDdEnv
  repeat' split
  all_goals rfl

@[simp] theorem applyDdEnv_dd_service (env : String → Option String) (c : TelemetryConfig) :
    (applyDdEnv env c).dd_service = c.dd_service := by
  unfold applyDdEnv
  repeat' split
  all_goals rfl

@[simp] theorem applyDdEnv_dd_trace_agent_url (env : String → Option String) (c : TelemetryConfig) :
    (applyDdEnv env c).dd_trace_agent_url = c.dd_trace_agent_url := by
  unfold applyDdEnv
  repeat' split
  all_goals rfl

@[simp] theorem applyDdEnv_rust_log (env : String → Option String) (c : TelemetryConfig) :
    (applyDdEnv env c).rust_log = c.rust_log := by
  unfold applyDdEnv
  repeat' split
  all_goals rfl

@[simp] theorem applyDdEnv_statsd_host (env : String → Option String) (c : TelemetryConfig) :
    (applyDdEnv env c).statsd_host = c.statsd_host := by
  unfold applyDdEnv
  repeat' split
  all_goals rfl

@[simp] theorem applyDdEnv_statsd_port (env : String → Option String) (c : TelemetryConfig) :
    (applyDdEnv env c).statsd_port = c.statsd_port := by
  unfold applyDdEnv
  repeat' split
  all_goals rfl

@[simp] theorem applyDdEnv_mpfx (env : String → Option String) (c : TelemetryConfig) :
    TelemetryConfig.metrics_prefix (applyDdEnv env c) = TelemetryConfig.metrics_prefix (c) := by
  unfold applyDdEnv
  repeat' split
  all_goals rfl

@[simp] theorem applyDdTraceAgentUrl_datadog_enabled (env : String → Option String) (c : TelemetryConfig) :
    (applyDdTraceAgentUrl env c).datadog_enabled = c.datadog_enabled := by
  unfold applyDdTraceAgentUrl
  repeat' split
  all_goals rfl

@[simp] theorem applyDdTraceAgentUrl_metrics_enabled (env : String → Option String) (c : TelemetryConfig) :
    (applyDdTraceAgentUrl env c).metrics_enabled = c.metrics_enabled := by
  unfold applyDdTraceAgentUrl
  repeat' split
  all_goals rfl

@[simp] theorem applyDdTraceAgentUrl_dd_service (env : String → Option String) (c : TelemetryConfig) :
    (applyDdTraceAgentUrl env c).dd_service = c.dd_service := by
  unfold applyDdTraceAgentUrl
  repeat' split
  all_goals rfl

@[simp] theorem applyDdTraceAgentUrl_dd_env (env : String → Option String) (c : TelemetryConfig) :
    (applyDdTraceAgentUrl env c).dd_env = c.dd_env := by
  unfold applyDdTraceAgentUrl
  repeat' split
  all_goals rfl

@[simp] theorem applyDdTraceAgentUrl_rust_log (env : String → Option String) (c : TelemetryConfig) :
    (applyDdTraceAgentUrl env c).rust_log = c.rust_log := by
  unfold applyDdTraceAgentUrl
  repeat' split
  all_goals rfl

@[simp] theorem applyDdTraceAgentUrl_statsd_host (env : String → Option String) (c : TelemetryConfig) :
    (applyDdTraceAgentUrl env c).statsd_host = c.statsd_host := by
  unfold applyDdTraceAgentUrl
  repeat' split
  all_goals rfl

@[simp] theorem applyDdTraceAgentUrl_statsd_port (env : String → Option String) (c : TelemetryConfig) :
    (applyDdTraceAgentUrl env c).statsd_port = c.statsd_port := by
  unfold applyDdTraceAgentUrl
  repeat' split
  all_goals rfl

@[simp] theorem applyDdTraceAgentUrl_mpfx (env : String → Option String) (c : TelemetryConfig) :
    TelemetryConfig.metrics_prefix (applyDdTraceAgentUrl env c) = TelemetryConfig.metrics_prefix (c) := by
  unfold applyDdTraceAgentUrl
  repeat' split
  all_goals rfl

@[simp] theorem applyRustLog_datadog_enabled (env : String → Option String) (c : TelemetryConfig) :
    (applyRustLog env c).datadog_enabled = c.datadog_enabled := by
  unfold applyRustLog
  repeat' split
  all_goals rfl

@[simp] theorem applyRustLog_metrics_enabled (env : String → Option String) (c : TelemetryConfig) :
    (applyRustLog env c).metrics_enabled = c.metrics_enabled := by
  unfold applyRustLog
  repeat' split
  all_goals rfl

@[simp] theorem applyRustLog_dd_service (env : String → Option String) (c : TelemetryConfig) :
    (applyRustLog env c).dd_service = c.dd_service := by
  unfold applyRustLog
  repeat' split
  all_goals rfl

@[simp] theorem applyRustLog_dd_env (env : String → Option String) (c : TelemetryConfig) :
    (applyRustLog env c).dd_env = c.dd_env := by
  unfold applyRustLog
  repeat' split
  all_goals rfl

@[simp] theorem applyRustLog_dd_trace_agent_url (env : String → Option String) (c : TelemetryConfig) :
    (applyRustLog env c).dd_trace_agent_url = c.dd_trace_agent_url := by
  unfold applyRustLog
  repeat' split
  all_goals rfl

@[simp] theorem applyRustLog_statsd_host (env : String → Option String) (c : TelemetryConfig) :
    (applyRustLog env c).statsd_host = c.statsd_host := by
  unfold applyRustLog
  repeat' split
  all_goals rfl

@[simp] theorem applyRustLog_statsd_port (env : String → Option String) (c : TelemetryConfig) :
    (applyRustLog env c).statsd_port = c.statsd_port := by
  unfold applyRustLog
  repeat' split
  all_goals rfl

@[simp] theorem applyRustLog_mpfx (env : String → Option String) (c : TelemetryConfig) :
    TelemetryConfig.metrics_prefix (applyRustLog env c) = TelemetryConfig.metrics_prefix (c) := by
  unfold applyRustLog
  repeat' split
  all_goals rfl

@[simp] theorem applyStatsdHost_datadog_enabled (env : String → Option String) (c : TelemetryConfig) :
    (applyStatsdHost env c).datadog_enabled = c.datadog_enabled := by
  unfold applyStatsdHost
  repeat' split
  all_goals rfl

@[simp] theorem applyStatsdHost_metrics_enabled (env : String → Option String) (c : TelemetryConfig) :
    (applyStatsdHost env c).metrics_enabled = c.metrics_enabled := by
  unfold applyStatsdHost
  repeat' split
  all_goals rfl

@[simp] theorem applyStatsdHost_dd_service (env : String → Option String) (c : TelemetryConfig) :
    (applyStatsdHost env c).dd_service = c.dd_service := by
  unfold applyStatsdHost
  repeat' split
  all_goals rfl

@[simp] theorem applyStatsdHost_dd_env (env : String → Option String) (c : TelemetryConfig) :
    (applyStatsdHost env c).dd_env = c.dd_env := by
  unfold applyStatsdHost
  repeat' split
  all_goals rfl

@[simp] theorem applyStatsdHost_dd_trace_agent_url (env : String → Option String) (c : TelemetryConfig) :
    (applyStatsdHost env c).dd_trace_agent_url = c.dd_trace_agent_url := by
  unfold applyStatsdHost
  repeat' split
  all_goals rfl

@[simp] theorem applyStatsdHost_rust_log (env : String → Option String) (c : TelemetryConfig) :
    (applyStatsdHost env c).rust_log = c.rust_log := by
  unfold applyStatsdHost
  repeat' split
  all_goals rfl

@[simp] theorem applyStatsdHost_statsd_port (env : String → Option String) (c : TelemetryConfig) :
    (applyStatsdHost env c).statsd_port = c.statsd_port := by
  unfold applyStatsdHost
  repeat' split
  all_goals rfl

@[simp] theorem applyStatsdHost_mpfx (env : String → Option String) (c : TelemetryConfig) :
    TelemetryConfig.metrics_prefix (applyStatsdHost env c) = TelemetryConfig.metrics_prefix (c) := by
  unfold applyStatsdHost
  repeat' split
  all_goals rfl

@[simp] theorem applyStatsdPort_datadog_enabled (env : String → Option String) (c : TelemetryConfig) :
    (applyStatsdPort env c).datadog_enabled = c.datadog_enabled := by
  unfold applyStatsdPort
  repeat' split
  all_goals rfl

@[simp] theorem applyStatsdPort_metrics_enabled (env : String → Option String) (c : TelemetryConfig) :
    (applyStatsdPort env c).metrics_enabled = c.metrics_enabled := by
  unfold applyStatsdPort
  repeat' split
  all_goals rfl

@[simp] theorem applyStatsdPort_dd_service (env : String → Option String) (c : TelemetryConfig) :
    (applyStatsdPort env c).dd_service = c.dd_service := by
  unfold applyStatsdPort
  repeat' split
  all_goals rfl

@[simp] theorem applyStatsdPort_dd_env (env : String → Option String) (c : TelemetryConfig) :
    (applyStatsdPort env c).dd_env = c.dd_env := by
  unfold applyStatsdPort
  repeat' split
  all_goals rfl

@[simp] theorem applyStatsdPort_dd_trace_agent_url (env : String → Option String) (c : TelemetryConfig) :
    (applyStatsdPort env c).dd_trace_agent_url = c.dd_trace_agent_url := by
  unfold applyStatsdPort
  repeat' split
  all_goals rfl

@[simp] theorem applyStatsdPort_rust_log (env : String → Option String) (c : TelemetryConfig) :
    (applyStatsdPort env c).rust_log = c.rust_log := by
  unfold applyStatsdPort
  repeat' split
  all_goals rfl

@[simp] theorem applyStatsdPort_statsd_host (env : String → Option String) (c : TelemetryConfig) :
    (applyStatsdPort env c).statsd_host = c.statsd_host := by
  unfold applyStatsdPort
  repeat' split
  all_goals rfl

@[simp] theorem applyStatsdPort_mpfx (env : String → Option String) (c : TelemetryConfig) :
    TelemetryConfig.metrics_prefix (applyStatsdPort env c) = TelemetryConfig.metrics_prefix (c) := by
  unfold applyStatsdPort
  repeat' split
  all_goals rfl

@[simp] theorem applyMetricsPrefix_datadog_enabled (env : String → Option String) (c : TelemetryConfig) :
    (applyMetricsPrefix env c).datadog_enabled = c.datadog_enabled := by
  unfold applyMetricsPrefix
  repeat' split
  all_goals rfl

@[simp] theorem applyMetricsPrefix_metrics_enabled (env : String → Option String) (c : TelemetryConfig) :
    (applyMetricsPrefix env c).metrics_enabled = c.metrics_enabled := by
  unfold applyMetricsPrefix
  repeat' split
  all_goals rfl

@[simp] theorem applyMetricsPrefix_dd_service (env : String → Option String) (c : TelemetryConfig) :
    (applyMetricsPrefix env c).dd_service = c.dd_service := by
  unfold applyMetricsPrefix
  repeat' split
  all_goals rfl

@[simp] theorem applyMetricsPrefix_dd_env (env : String → Option String) (c : TelemetryConfig) :
    (applyMetricsPrefix env c).dd_env = c.dd_env := by
  unfold applyMetricsPrefix
  repeat' split
  all_goals rfl

@[simp] theorem applyMetricsPrefix_dd_trace_agent_url (env : String → Option String) (c : TelemetryConfig) :
    (applyMetricsPrefix env c).dd_trace_agent_url = c.dd_trace_agent_url := by
  unfold applyMetricsPrefix
  repeat' split
  all_goals rfl

@[simp] theorem applyMetricsPrefix_rust_log (env : String → Option String) (c : TelemetryConfig) :
    (applyMetricsPrefix env c).rust_log = c.rust_log := by
  unfold applyMetricsPrefix
  repeat' split
  all_goals rfl

@[simp] theorem applyMetricsPrefix_statsd_host (env : String → Option String) (c : TelemetryConfig) :
    (applyMetricsPrefix env c).statsd_host = c.statsd_host := by
  unfold applyMetricsPrefix
  repeat' split
  all_goals rfl

@[simp] theorem applyMetricsPrefix_statsd_port (env : String → Option String) (c : TelemetryConfig) :
    (applyMetricsPrefix env c).statsd_port = c.statsd_port := by
  unfold applyMetricsPrefix
  repeat' split
  all_goals rfl


/-! ### Per-field resolution of `from_env` -/

@[simp] theorem from_env_datadog_enabled (env : String → Option String) :
    (TelemetryConfig.from_env env).datadog_enabled =
      (match env "DD_TRACE_ENABLED" with
       | some v => if strToLower v = "false" then false else true
       | none => true) := by
  unfold TelemetryConfig.from_env applyDdTraceEnabled
  repeat' split
  all_goals simp [TelemetryConfig.default]

@[simp] theorem from_env_metrics_enabled (env : String → Option String) :
    (TelemetryConfig.from_env env).metrics_enabled =
      (match env "METRICS_ENABLED" with
       | some v => if strToLower v = "false" then false else true
       | none => true) := by
  unfold TelemetryConfig.from_env applyMetricsEnabled
  repeat' split
  all_goals simp [TelemetryConfig.default]

@[simp] theorem from_env_dd_service (env : String → Option String) :
    (TelemetryConfig.from_env env).dd_service =
      (match env "DD_SERVICE" with
       | some v => v
       | none => "sideways-service") := by
  unfold TelemetryConfig.from_env applyDdService
  repeat' split
  all_goals simp [TelemetryConfig.default]

@[simp] theorem from_env_dd_env (env : String → Option String) :
    (TelemetryConfig.from_env env).dd_env =
      (match env "DD_ENV" with
       | some v => v
       | none => "development") := by
  unfold TelemetryConfig.from_env applyDdEnv
  repeat' split
  all_goals simp [TelemetryConfig.default]

@[simp] theorem from_env_dd_trace_agent_url (env : String → Option String) :
    (TelemetryConfig.from_env env).dd_trace_agent_url =
      (match env "DD_TRACE_AGENT_URL" with
       | some v => v
       | none => "http://localhost:8126") := by
  unfold TelemetryConfig.from_env applyDdTraceAgentUrl
  repeat' split
  all_goals simp [TelemetryConfig.default]

@[simp] theorem from_env_rust_log (env : String → Option String) :
    (TelemetryConfig.from_env env).rust_log =
      (match env "RUST_LOG" with
       | some v => v
       | none => "info") := by
  unfold TelemetryConfig.from_env applyRustLog
  repeat' split
  all_goals simp [TelemetryConfig.default]

@[simp] theorem from_env_statsd_host (env : String → Option String) :
    (TelemetryConfig.from_env env).statsd_host =
      (match env "STATSD_HOST" with
       | some v => v
       | none => "localhost") := by
  unfold TelemetryConfig.from_env applyStatsdHost
  repeat' split
  all_goals simp [TelemetryConfig.default]

@[simp] theorem from_env_statsd_port (env : String → Option String) :
    (TelemetryConfig.from_env env).statsd_port =
      (match env "STATSD_PORT" with
       | some v =>
         match parseU16 v with
         | some n => n
         | none => 8125
       | none => 8125) := by
  unfold TelemetryConfig.from_env applyStatsdPort
  repeat' split
  all_goals simp [TelemetryConfig.default]

@[simp] theorem from_env_mpfx (env : String → Option String) :
    TelemetryConfig.metrics_prefix (TelemetryConfig.from_env env) =
      (match env "METRICS_PREFIX" with
       | some v => v
       | none => "sideways") := by
  unfold TelemetryConfig.from_env applyMetricsPrefix
  repeat' split
  all_goals simp [TelemetryConfig.default]


/-! ## Claims -/

/-- C1: the health-check filter is a pure predicate over span/event
metadata; it rejects exactly when the target starts with
`"tonic_health"`, or the target contains `"grpc.health"` or `"Health"`
(case-sensitive), or the name contains `"health"`, `"Health"` or
`"Check"` (case-sensitive); otherwise it admits.  In particular target
`"tonic_health.v1"` is rejected, target `"grpc.health.v1.Health"` is
rejected, name `"DoHealthCheck"` is rejected, name `"checkhealthy"` is
rejected (only via the lowercase `"health"` rule), and name
`"ProcessOrder"` with an unrelated target is admitted. -/
theorem claim_C1_health_filter :
    (∀ meta : Metadata, HealthCheckFilter.enabled meta = !(healthSpecRejects meta)) ∧
    HealthCheckFilter.enabled ⟨"tonic_health.v1", "poll"⟩ = false ∧
    HealthCheckFilter.enabled ⟨"grpc.health.v1.Health", "rpc"⟩ = false ∧
    HealthCheckFilter.enabled ⟨"myapp::server", "DoHealthCheck"⟩ = false ∧
    HealthCheckFilter.enabled ⟨"myapp::server", "checkhealthy"⟩ = false ∧
    strContainsSub "checkhealthy" "Health" = false ∧
    strContainsSub "checkhealthy" "Check" = false ∧
    strContainsSub "checkhealthy" "health" = true ∧
    HealthCheckFilter.enabled ⟨"myapp::orders", "ProcessOrder"⟩ = true := by
  refine ⟨?_, by decide, by decide, by decide, by decide, by decide, by decide, by decide,
    by decide⟩
  intro meta
  unfold HealthCheckFilter.enabled healthSpecRejects
  cases strStartsWith meta.target "tonic_health" <;>
    cases strContainsSub meta.target "grpc.health" <;>
    cases strContainsSub meta.target "Health" <;>
    cases strContainsSub meta.name "health" <;>
    cases strContainsSub meta.name "Health" <;>
    cases strContainsSub meta.name "Check" <;> rfl

/-- C2: in `init_datadog`'s layered subscriber, the health-check filter
gates only the export layer, which is gated by exactly the health-check
filter and the hard `LevelFilter::INFO` floor — independent of the
user-configured severity filter; the console layer receives exactly
what the resolved severity filter admits, so an admitted span/event
matching a health-check rule still reaches the console layer but not
the export layer. -/
theorem claim_C2_export_gating (w : World) (config : TelemetryConfig) (e : Event) :
    (consoleReceives (initDatadogSubscriber w config) e =
      w.envFilterSem (get_env_filter w.parseOk (w.env "RUST_LOG") config) e) ∧
    (exportReceives (initDatadogSubscriber w config) e =
      (HealthCheckFilter.enabled e.meta && infoLevelFilterEnabled e.level)) ∧
    (w.envFilterSem (get_env_filter w.parseOk (w.env "RUST_LOG") config) e = true →
      HealthCheckFilter.enabled e.meta = false →
      consoleReceives (initDatadogSubscriber w config) e = true ∧
      exportReceives (initDatadogSubscriber w config) e = false) ∧
    (infoLevelFilterEnabled e.level = false →
      exportReceives (initDatadogSubscriber w config) e = false) := by
  refine ⟨rfl, rfl, ?_, ?_⟩
  · intro hsev hhc
    exact ⟨hsev, by simp [exportReceives, initDatadogSubscriber, hhc]⟩
  · intro hlvl
    simp [exportReceives, initDatadogSubscriber, hlvl]

/-- Witness for C2 at a concrete world, configuration and event. -/
theorem claim_C2_witness :
    consoleReceives (initDatadogSubscriber wOk TelemetryConfig.default) eHealth = true ∧
    exportReceives (initDatadogSubscriber wOk TelemetryConfig.default) eHealth = false :=
  (claim_C2_export_gating wOk TelemetryConfig.default eHealth).2.2.1 rfl (by decide)

/-- C3: for each disable variable (`DD_TRACE_ENABLED` for tracing,
`METRICS_ENABLED` for metrics), `from_env` disables the feature iff the
variable is present and its lower-cased value is exactly `"false"`;
`"False"` disables, `"0"` leaves enabled, unset leaves enabled. -/
theorem claim_C3_disable_vars (env : String → Option String) :
    ((TelemetryConfig.from_env env).datadog_enabled = false ↔
      ∃ v, env "DD_TRACE_ENABLED" = some v ∧ strToLower v = "false") ∧
    ((TelemetryConfig.from_env env).metrics_enabled = false ↔
      ∃ v, env "METRICS_ENABLED" = some v ∧ strToLower v = "false") ∧
    (TelemetryConfig.from_env envDisableFalse).datadog_enabled = false ∧
    (TelemetryConfig.from_env envDisableFalse).metrics_enabled = false ∧
    (TelemetryConfig.from_env envDisableZero).datadog_enabled = true ∧
    (TelemetryConfig.from_env envDisableZero).metrics_enabled = true ∧
    (TelemetryConfig.from_env envNone).datadog_enabled = true ∧
    (TelemetryConfig.from_env envNone).metrics_enabled = true := by
  refine ⟨?_, ?_, by decide, by decide, by decide, by decide, by decide, by decide⟩
  · rw [from_env_datadog_enabled]
    cases h : env "DD_TRACE_ENABLED" with
    | none => simp [h]
    | some v => by_cases hv : strToLower v = "false" <;> simp [h, hv]
  · rw [from_env_metrics_enabled]
    cases h : env "METRICS_ENABLED" with
    | none => simp [h]
    | some v => by_cases hv : strToLower v = "false" <;> simp [h, hv]

/-- A parsed port is within the `u16` range. -/
theorem parseU16_le (s : String) (n : Nat) (h : parseU16 s = some n) : n ≤ 65535 := by
  unfold parseU16 at h
  split at h
  · split at h <;> simp_all
  · simp_all

/-- C6: a `STATSD_PORT` value that fails `u16` parsing (bad syntax or
out of 0–65535) leaves the port at its prior default 8125; a value
denoting an integer in 0–65535 is adopted exactly. -/
theorem claim_C6_port_resolution (env : String → Option String) (s : String)
    (h : env "STATSD_PORT" = some s) :
    (parseU16 s = none → (TelemetryConfig.from_env env).statsd_port = 8125) ∧
    (∀ n, parseU16 s = some n → (TelemetryConfig.from_env env).statsd_port = n) ∧
    (∀ n, parseU16 s = some n → n ≤ 65535) := by
  refine ⟨?_, ?_, ?_⟩
  · intro hp
    rw [from_env_statsd_port]
    simp [h, hp]
  · intro n hp
    rw [from_env_statsd_port]
    simp [h, hp]
  · intro n hp
    exact parseU16_le s n hp

/-- Witness for C6: `"8080"` is adopted; `"70000"` is out of range and
ignored. -/
theorem claim_C6_witness :
    (TelemetryConfig.from_env envPortGood).statsd_port = 8080 ∧
    (TelemetryConfig.from_env envPortBad).statsd_port = 8125 := by
  constructor
  · exact (claim_C6_port_resolution envPortGood "8080" (by decide)).2.1 8080 (by decide)
  · exact (claim_C6_port_resolution envPortBad "70000" (by decide)).1 (by decide)

/-- C10: every recognized string variable that is present is adopted
verbatim by `from_env`, with no emptiness or validity check. -/
theorem claim_C10_verbatim_strings (env : String → Option String) :
    (∀ v, env "DD_SERVICE" = some v → (TelemetryConfig.from_env env).dd_service = v) ∧
    (∀ v, env "DD_ENV" = some v → (TelemetryConfig.from_env env).dd_env = v) ∧
    (∀ v, env "DD_TRACE_AGENT_URL" = some v →
      (TelemetryConfig.from_env env).dd_trace_agent_url = v) ∧
    (∀ v, env "RUST_LOG" = some v → (TelemetryConfig.from_env env).rust_log = v) ∧
    (∀ v, env "STATSD_HOST" = some v → (TelemetryConfig.from_env env).statsd_host = v) ∧
    (∀ v, env "METRICS_PREFIX" = some v →
      TelemetryConfig.metrics_prefix (TelemetryConfig.from_env env) = v) := by
  refine ⟨?_, ?_, ?_, ?_, ?_, ?_⟩ <;> intro v h <;> simp [h]

/-- Witness for C10: with every variable set to the empty string, every
string field of the resolved record is empty. -/
theorem claim_C10_witness :
    (TelemetryConfig.from_env envAllEmpty).dd_service = "" ∧
    (TelemetryConfig.from_env envAllEmpty).dd_env = "" ∧
    (TelemetryConfig.from_env envAllEmpty).dd_trace_agent_url = "" ∧
    (TelemetryConfig.from_env envAllEmpty).rust_log = "" ∧
    (TelemetryConfig.from_env envAllEmpty).statsd_host = "" ∧
    TelemetryConfig.metrics_prefix (TelemetryConfig.from_env envAllEmpty) = "" := by
  have h := claim_C10_verbatim_strings envAllEmpty
  exact ⟨h.1 "" rfl, h.2.1 "" rfl, h.2.2.1 "" rfl, h.2.2.2.1 "" rfl,
    h.2.2.2.2.1 "" rfl, h.2.2.2.2.2 "" rfl⟩

/-- Builder chains commute with field projections: after any call
sequence, a field holds the argument of its last setter, or its value in
the starting builder if it was never set. -/
theorem foldl_build_proj (proj : TelemetryConfig → α) (sel : BuilderOp → Option α)
    (hstep : ∀ b op, proj (TelemetryConfigBuilder.build (applyOp b op)) =
      (sel op).getD (proj (TelemetryConfigBuilder.build b))) :
    ∀ (ops : List BuilderOp) (b : TelemetryConfigBuilder),
      proj (TelemetryConfigBuilder.build (ops.foldl applyOp b)) =
        valAfter sel (proj (TelemetryConfigBuilder.build b)) ops := by
  intro ops
  induction ops with
  | nil =>
    intro b
    rfl
  | cons op ops ih =>
    intro b
    calc proj (TelemetryConfigBuilder.build ((op :: ops).foldl applyOp b))
        = proj (TelemetryConfigBuilder.build (ops.foldl applyOp (applyOp b op))) := rfl
      _ = valAfter sel (proj (TelemetryConfigBuilder.build (applyOp b op))) ops := ih (applyOp b op)
      _ = valAfter sel ((sel op).getD (proj (TelemetryConfigBuilder.build b))) ops := by
          rw [hstep]
      _ = valAfter sel (proj (TelemetryConfigBuilder.build b)) (op :: ops) := rfl

/-- A selector that never fires leaves the start value. -/
theorem valAfter_none (d : α) (ops : List BuilderOp) :
    valAfter (fun _ => (none : Option α)) d ops = d := by
  induction ops generalizing d with
  | nil => rfl
  | cons op ops ih => exact ih d

/-- C4 counterexample: the claim predicts that `builder().build()` with
no setter calls equals the environment-resolved record; with
`DD_SERVICE` set in the environment the two differ — the builder starts
from the hardcoded default record, not from `from_env`. -/
theorem claim_C4_counterexample :
    ((runOps [] == TelemetryConfig.from_env envServiceOnly) = false) ∧
    (runOps []).dd_service = "sideways-service" ∧
    (TelemetryConfig.from_env envServiceOnly).dd_service = "env-service" := by decide

/-- C4 (amended): the builder overlay starts from the hardcoded default
record — not from environment resolution.  For every setter-call
sequence, `builder()…build()` equals the default record with exactly
the explicitly-set fields replaced: each field holds its last setter's
argument, or its hardcoded default if never set; the static-tag field,
which has no setter, stays empty. -/
theorem claim_C4_amended (ops : List BuilderOp) :
    (runOps ops).datadog_enabled = valAfter selDatadogEnabled true ops ∧
    (runOps ops).dd_service = valAfter selDdService "sideways-service" ops ∧
    (runOps ops).dd_env = valAfter selDdEnv "development" ops ∧
    (runOps ops).dd_trace_agent_url = valAfter selDdTraceAgentUrl "http://localhost:8126" ops ∧
    (runOps ops).rust_log = valAfter selRustLog "info" ops ∧
    (runOps ops).metrics_enabled = valAfter selMetricsEnabled true ops ∧
    (runOps ops).statsd_host = valAfter selStatsdHost "localhost" ops ∧
    (runOps ops).statsd_port = valAfter selStatsdPort 8125 ops ∧
    TelemetryConfig.metrics_prefix (runOps ops) = valAfter selMetricsPrefix "sideways" ops ∧
    (runOps ops).global_tags = [] := by
  refine ⟨?_, ?_, ?_, ?_, ?_, ?_, ?_, ?_, ?_, ?_⟩
  · exact foldl_build_proj (fun c => c.datadog_enabled) selDatadogEnabled
      (fun b op => by cases op <;> rfl) ops TelemetryConfig.builder
  · exact foldl_build_proj (fun c => c.dd_service) selDdService
      (fun b op => by cases op <;> rfl) ops TelemetryConfig.builder
  · exact foldl_build_proj (fun c => c.dd_env) selDdEnv
      (fun b op => by cases op <;> rfl) ops TelemetryConfig.builder
  · exact foldl_build_proj (fun c => c.dd_trace_agent_url) selDdTraceAgentUrl
      (fun b op => by cases op <;> rfl) ops TelemetryConfig.builder
  · exact foldl_build_proj (fun c => c.rust_log) selRustLog
      (fun b op => by cases op <;> rfl) ops TelemetryConfig.builder
  · exact foldl_build_proj (fun c => c.metrics_enabled) selMetricsEnabled
      (fun b op => by cases op <;> rfl) ops TelemetryConfig.builder
  · exact foldl_build_proj (fun c => c.statsd_host) selStatsdHost
      (fun b op => by cases op <;> rfl) ops TelemetryConfig.builder
  · exact foldl_build_proj (fun c => c.statsd_port) selStatsdPort
      (fun b op => by cases op <;> rfl) ops TelemetryConfig.builder
  · exact foldl_build_proj (fun c => TelemetryConfig.metrics_prefix c) selMetricsPrefix
      (fun b op => by cases op <;> rfl) ops TelemetryConfig.builder
  · exact (foldl_build_proj (fun c => c.global_tags) (fun _ => none)
      (fun b op => by cases op <;> rfl) ops TelemetryConfig.builder).trans
      (valAfter_none _ ops)

/-- Adding tags folds to appending them, left to right. -/
theorem tagsFold_defaultTags (l : List (String × String)) :
    ∀ b : StatsdBuilder,
      (l.foldl (fun b kv => StatsdBuilder.with_tag b kv.1 kv.2) b).defaultTags =
        b.defaultTags ++ l := by
  induction l with
  | nil =>
    intro b
    simp
  | cons kv l ih =>
    intro b
    rw [List.foldl_cons, ih]
    simp [StatsdBuilder.with_tag]

/-- Adding tags never changes the client namespace. -/
theorem tagsFold_clientNamespace (l : List (String × String)) :
    ∀ b : StatsdBuilder,
      (l.foldl (fun b kv => StatsdBuilder.with_tag b kv.1 kv.2) b).clientPrefix =
        b.clientPrefix := by
  induction l with
  | nil =>
    intro b
    rfl
  | cons kv l ih =>
    intro b
    rw [List.foldl_cons, ih]
    rfl

/-- C5: for every configuration (and every fresh state, when the two
external steps succeed) `init_metrics` builds the StatsD client with the
configured namespace prefix and every configured static tag as a
constant tag, and registers it as the process-wide global default; with
prefix `"svc"` and tag `region:us`, a counter named `"requests"`
reaches the transport as `svc.requests:1|c|#region:us`. -/
theorem claim_C5_metrics_client (w : World) (config : TelemetryConfig) (st : ProcessState)
    (hb : w.udpBindErr = none) (hs : w.sinkCreateErr = none) :
    (init_metrics w config st).1 = Except.ok () ∧
    (init_metrics w config st).2.globalMetrics = some (buildStatsdClient config) ∧
    (buildStatsdClient config).clientPrefix = TelemetryConfig.metrics_prefix config ∧
    (buildStatsdClient config).defaultTags = config.global_tags ∧
    counterFrame (buildStatsdClient svcConfig) "requests" 1 = "svc.requests:1|c|#region:us" := by
  refine ⟨?_, ?_, ?_, ?_, by decide⟩
  · simp [init_metrics, hb, hs]
  · simp [init_metrics, hb, hs]
  · simp [buildStatsdClient, StatsdBuilder.build, tagsFold_clientNamespace, statsdClientBuilder]
  · simp [buildStatsdClient, StatsdBuilder.build, tagsFold_defaultTags, statsdClientBuilder]

/-- Witness for C5 at the scenario configuration. -/
theorem claim_C5_witness :
    (init_metrics wOk svcConfig emptyState).1 = Except.ok () ∧
    (init_metrics wOk svcConfig emptyState).2.globalMetrics = some (buildStatsdClient svcConfig) ∧
    (buildStatsdClient svcConfig).clientPrefix = TelemetryConfig.metrics_prefix svcConfig ∧
    (buildStatsdClient svcConfig).defaultTags = svcConfig.global_tags ∧
    counterFrame (buildStatsdClient svcConfig) "requests" 1 = "svc.requests:1|c|#region:us" :=
  claim_C5_metrics_client wOk svcConfig emptyState rfl rfl

/-- C7: severity-filter resolution falls back through exactly three
stages — the `RUST_LOG` process-environment expression if present and
parseable, else the configured expression if it parses, else the
hardcoded `"info"` — never surfacing a parse failure; and both tracing
initializers gate their console layer with exactly this resolved
filter. -/
theorem claim_C7_filter_fallback (parseOk : String → Bool) (rustLogEnv : Option String)
    (config : TelemetryConfig) :
    (∀ s, rustLogEnv = some s → parseOk s = true →
      get_env_filter parseOk rustLogEnv config = s) ∧
    (∀ s, rustLogEnv = some s → parseOk s = false → parseOk config.rust_log = true →
      get_env_filter parseOk rustLogEnv config = config.rust_log) ∧
    (rustLogEnv = none → parseOk config.rust_log = true →
      get_env_filter parseOk rustLogEnv config = config.rust_log) ∧
    (∀ s, rustLogEnv = some s → parseOk s = false → parseOk config.rust_log = false →
      get_env_filter parseOk rustLogEnv config = "info") ∧
    (rustLogEnv = none → parseOk config.rust_log = false →
      get_env_filter parseOk rustLogEnv config = "info") ∧
    (∀ w : World, (initConsoleSubscriber w config).consoleFilter =
      w.envFilterSem (get_env_filter w.parseOk (w.env "RUST_LOG") config)) ∧
    (∀ w : World, (initDatadogSubscriber w config).consoleFilter =
      w.envFilterSem (get_env_filter w.parseOk (w.env "RUST_LOG") config)) := by
  refine ⟨?_, ?_, ?_, ?_, ?_, fun w => rfl, fun w => rfl⟩
  · intro s hs hp
    subst hs
    simp [get_env_filter, try_from_default_env, envFilterTryNew, hp, Option.orElse]
  · intro s hs hp hc
    subst hs
    simp [get_env_filter, try_from_default_env, envFilterTryNew, hp, hc, Option.orElse]
  · intro hs hc
    subst hs
    simp [get_env_filter, try_from_default_env, envFilterTryNew, hc, Option.orElse]
  · intro s hs hp hc
    subst hs
    simp [get_env_filter, try_from_default_env, envFilterTryNew, hp, hc, Option.orElse]
  · intro hs hc
    subst hs
    simp [get_env_filter, try_from_default_env, envFilterTryNew, hc, Option.orElse]

/-- Witness for C7: stage 1 (environment value parses), stage 2
(environment value fails, configured `"info"` parses), stage 3 (both
fail). -/
theorem claim_C7_witness :
    get_env_filter parseOkDemo (some "custom=debug") TelemetryConfig.default = "custom=debug" ∧
    get_env_filter parseOkInfoOnly (some "%%%") TelemetryConfig.default = "info" ∧
    get_env_filter parseOkDemo (some "%%%") TelemetryConfig.default = "info" := by
  refine ⟨?_, ?_, ?_⟩
  · exact (claim_C7_filter_fallback parseOkDemo (some "custom=debug")
      TelemetryConfig.default).1 "custom=debug" rfl (by decide)
  · exact (claim_C7_filter_fallback parseOkInfoOnly (some "%%%")
      TelemetryConfig.default).2.1 "%%%" rfl (by decide) (by decide)
  · exact (claim_C7_filter_fallback parseOkDemo (some "%%%")
      TelemetryConfig.default).2.2.2.1 "%%%" rfl (by decide) (by decide)

/-- C8: `init_datadog` fails exactly when a global subscriber is already
installed, and then returns the typed `SubscriberInit` error with the
state unchanged; a second call in one process returns that error while
the first call's subscriber remains installed. -/
theorem claim_C8_subscriber_install (w w₂ : World) (c c₂ : TelemetryConfig)
    (st : ProcessState) :
    ((∃ p, (init_datadog w c st).1 = Except.ok p) ↔ st.globalSubscriber = none) ∧
    (st.globalSubscriber ≠ none →
      init_datadog w c st =
        (Except.error (TelemetryError.SubscriberInit setGlobalDefaultErrMsg), st)) ∧
    (st.globalSubscriber = none →
      (init_datadog w₂ c₂ (init_datadog w c st).2).1 =
          Except.error (TelemetryError.SubscriberInit setGlobalDefaultErrMsg) ∧
        (init_datadog w₂ c₂ (init_datadog w c st).2).2.globalSubscriber =
          some (initDatadogSubscriber w c)) := by
  refine ⟨?_, ?_, ?_⟩
  · constructor
    · rintro ⟨p, hp⟩
      cases hsub : st.globalSubscriber with
      | none => rfl
      | some sub => simp [init_datadog, hsub] at hp
    · intro hnone
      exact ⟨⟨c.dd_service, c.dd_trace_agent_url⟩, by simp [init_datadog, hnone]⟩
  · intro hne
    cases hsub : st.globalSubscriber with
    | none => exact absurd hsub hne
    | some sub => simp [init_datadog, hsub]
  · intro hnone
    constructor <;> simp [init_datadog, hnone]

/-- Witness for C8: two calls on a fresh process. -/
theorem claim_C8_witness :
    (init_datadog wOk TelemetryConfig.default
        (init_datadog wOk TelemetryConfig.default emptyState).2).1 =
      Except.error (TelemetryError.SubscriberInit setGlobalDefaultErrMsg) ∧
    (init_datadog wOk TelemetryConfig.default
        (init_datadog wOk TelemetryConfig.default emptyState).2).2.globalSubscriber =
      some (initDatadogSubscriber wOk TelemetryConfig.default) :=
  (claim_C8_subscriber_install wOk wOk TelemetryConfig.default TelemetryConfig.default
    emptyState).2.2 rfl

/-- `init_metrics` never touches the installed subscriber. -/
@[simp] theorem init_metrics_globalSubscriber (w : World) (config : TelemetryConfig)
    (st : ProcessState) :
    (init_metrics w config st).2.globalSubscriber = st.globalSubscriber := by
  unfold init_metrics
  repeat' split
  all_goals rfl

/-- `init_console_logging` never touches the installed metrics client. -/
@[simp] theorem init_console_logging_globalMetrics (w : World) (config : TelemetryConfig)
    (st : ProcessState) :
    (init_console_logging w config st).globalMetrics = st.globalMetrics := by
  unfold init_console_logging
  repeat' split
  all_goals rfl

/-- `init_datadog` never touches the installed metrics client. -/
@[simp] theorem init_datadog_globalMetrics (w : World) (config : TelemetryConfig)
    (st : ProcessState) :
    (init_datadog w config st).2.globalMetrics = st.globalMetrics := by
  unfold init_datadog
  repeat' split
  all_goals rfl

/-- C9: `init_telemetry` is total (it returns a `Telemetry` value, never
an error).  With tracing disabled it branches to console-only logging
and leaves `tracer_provider` empty; an `init_datadog` failure is caught
and leaves `tracer_provider` empty; the tracing outcome is unaffected by
metrics failures, a metrics failure is caught (the global client is
simply left as it was), and a tracing failure does not prevent metrics
initialization. -/
theorem claim_C9_total_init (w : World) (config : TelemetryConfig) (st : ProcessState) :
    (config.datadog_enabled = false →
      (init_telemetry w config st).1.tracer_provider = none ∧
      (init_telemetry w config st).2.globalSubscriber =
        (init_console_logging w config st).globalSubscriber) ∧
    (config.datadog_enabled = true →
      (∀ err, (init_datadog w config st).1 = Except.error err →
        (init_telemetry w config st).1.tracer_provider = none) ∧
      (∀ p, (init_datadog w config st).1 = Except.ok p →
        (init_telemetry w config st).1.tracer_provider = some p)) ∧
    (∀ bindErr sinkErr,
      (init_telemetry { w with udpBindErr := bindErr, sinkCreateErr := sinkErr } config st).1 =
        (init_telemetry w config st).1) ∧
    (config.metrics_enabled = true → w.udpBindErr = none → w.sinkCreateErr = none →
      (init_telemetry w config st).2.globalMetrics = some (buildStatsdClient config)) ∧
    (config.metrics_enabled = true → ∀ m, w.udpBindErr = some m →
      (init_telemetry w config st).2.globalMetrics = st.globalMetrics) := by
  refine ⟨?_, ?_, ?_, ?_, ?_⟩
  · intro h
    constructor
    · simp [init_telemetry, h]
    · cases hm : config.metrics_enabled <;> simp [init_telemetry, h, hm]
  · intro h
    constructor
    · intro err herr
      rcases hd : init_datadog w config st with ⟨r, st₁⟩
      rw [hd] at herr
      simp only at herr
      subst herr
      simp [init_telemetry, h, hd]
    · intro p hp
      rcases hd : init_datadog w config st with ⟨r, st₁⟩
      rw [hd] at hp
      simp only at hp
      subst hp
      simp [init_telemetry, h, hd]
  · intro bindErr sinkErr
    rfl
  · intro hm hb hs
    simp [init_telemetry, hm, init_metrics, hb, hs]
  · intro hm m hbm
    have hpres := init_datadog_globalMetrics w config st
    rcases hd : init_datadog w config st with ⟨r, st₁⟩
    rw [hd] at hpres
    cases hcfg : config.datadog_enabled <;> cases r <;>
      simp_all [init_telemetry, init_metrics]

/-- Witness for C9: tracing disabled and metrics bind failure — the
call still produces a `Telemetry` value with no tracer, installs the
console subscriber, and leaves the metrics client untouched. -/
theorem claim_C9_witness :
    ((init_telemetry wBindFail svcConfig emptyState).1.tracer_provider = none ∧
      (init_telemetry wBindFail svcConfig emptyState).2.globalSubscriber =
        (init_console_logging wBindFail svcConfig emptyState).globalSubscriber) ∧
    (init_telemetry wBindFail svcConfig emptyState).2.globalMetrics =
      emptyState.globalMetrics := by
  refine ⟨(claim_C9_total_init wBindFail svcConfig emptyState).1 rfl, ?_⟩
  exact (claim_C9_total_init wBindFail svcConfig emptyState).2.2.2.2 rfl "bind failed" rfl

end Sideways
